import Mathlib

/-!
Verification of the PharmaTrack stock ledger and B2B order engine.

Shallow embedding of the service layer in `stock/services.py`,
`stock/models.py`, `b2b/services.py` and `b2b/models.py`:
* the Django database becomes explicit state (lists of records),
* `transaction.atomic` becomes an `Except` result: on error the caller
  keeps the pre-call state, which models full rollback,
* UUIDs become `Nat` (uuid4 freshness becomes a deterministic fresh id),
* `Decimal` money amounts become `Int` (exact fixed-point arithmetic),
* audit logging, `created_by`/timestamps and the PostgreSQL advisory
  locks are omitted: they do not affect the sequential state semantics.
-/

namespace PharmaTrack

/-- Domain exceptions from `core/exceptions.py` (plus the Python built-in
`NotImplementedError` raised by `stock/models.py` and Django's
`DoesNotExist` raised by an unfiltered `.get`). -/
inductive Err where
  | businessRuleViolation (detail : String)
  | insufficientStock (detail : String)
  | resourceNotFound (detail : String)
  | invalidStateTransition (detail : String)
  | doesNotExist (model : String)
  | notImplementedError (detail : String)
  deriving DecidableEq, Repr

instance {ε α : Type} [DecidableEq ε] [DecidableEq α] : DecidableEq (Except ε α) :=
  fun x y =>
    match x, y with
    | .ok a, .ok b =>
      if h : a = b then .isTrue (by rw [h])
      else .isFalse (fun hc => h (Except.ok.inj hc))
    | .ok _, .error _ => .isFalse (fun hc => Except.noConfusion hc)
    | .error _, .ok _ => .isFalse (fun hc => Except.noConfusion hc)
    | .error a, .error b =>
      if h : a = b then .isTrue (by rw [h])
      else .isFalse (fun hc => h (Except.error.inj hc))

/-- `medicines.Medicine`: only the field the B2B/stock core reads. -/
structure Medicine where
  authorized_price : Int
  deriving DecidableEq, Repr

/-- `medicines.NationalLot`: fields consulted by the stock/B2B core. -/
structure NationalLot where
  medicine_id : Nat
  status : String
  is_expired : Bool
  is_deleted : Bool
  deriving DecidableEq, Repr

/-- `NationalLot.is_usable`: ACTIVE and not expired. -/
def NationalLot.is_usable (lot : NationalLot) : Bool :=
  lot.status == "ACTIVE" && !lot.is_expired

/-- `StockMovement` record (`stock/models.py`). -/
structure StockMovement where
  id : Nat
  entity_type : String
  entity_id : Nat
  lot_id : Nat
  movement_type : String
  quantity : Int
  reference_id : Option Nat
  reference_type : String
  deriving DecidableEq, Repr

/-- `StockMovement.MovementType.choices` (`stock/models.py`). -/
def MOVEMENT_TYPE_CHOICES : List String :=
  ["IMPORT", "B2B_IN", "B2B_OUT", "SALE", "RETURN", "ADJUSTMENT", "RECALL_REMOVAL"]

/-- `INBOUND_TYPES` from `stock/services.py` (the set used by the balance
aggregation; it includes ADJUSTMENT). -/
def INBOUND_TYPES : List String := ["IMPORT", "B2B_IN", "RETURN", "ADJUSTMENT"]

/-- `OUTBOUND_TYPES` from `stock/services.py`. -/
def OUTBOUND_TYPES : List String := ["B2B_OUT", "SALE", "RECALL_REMOVAL"]

/-- Association-list lookup, modelling a primary-key `.get`. -/
def lookupBy {α : Type} (table : List (Nat × α)) (key : Nat) : Option α :=
  match table with
  | [] => none
  | (k, v) :: rest => if k == key then some v else lookupBy rest key

/-- `NationalLot.objects.get(pk=lot_id, is_deleted=False)`. -/
def getLot (lots : List (Nat × NationalLot)) (lot_id : Nat) : Option NationalLot :=
  match lookupBy lots lot_id with
  | none => none
  | some lot => if lot.is_deleted then none else some lot

/-- The `filter(entity_type=…, entity_id=…, lot_id=…)` predicate of
`_get_balance_orm`. -/
def movementMatches (entity_type : String) (entity_id lot_id : Nat)
    (m : StockMovement) : Bool :=
  m.entity_type == entity_type && m.entity_id == entity_id && m.lot_id == lot_id

/-- The inbound `Case/When(… then quantity, default 0)` of `_get_balance_orm`. -/
def inboundCase (m : StockMovement) : Int :=
  if INBOUND_TYPES.contains m.movement_type then m.quantity else 0

/-- The outbound `Case/When(… then quantity, default 0)` of `_get_balance_orm`. -/
def outboundCase (m : StockMovement) : Int :=
  if OUTBOUND_TYPES.contains m.movement_type then m.quantity else 0

/-- `_get_balance_orm` (`stock/services.py`): conditional-sum aggregation of
the filtered movements, inbound sum minus outbound sum. -/
def _get_balance_orm (ledger : List StockMovement)
    (entity_type : String) (entity_id lot_id : Nat) : Int :=
  let qs := ledger.filter (movementMatches entity_type entity_id lot_id)
  let in_sum := (qs.map inboundCase).sum
  let out_sum := (qs.map outboundCase).sum
  in_sum - out_sum

/-- Deterministic fresh primary key, modelling `uuid.uuid4` freshness. -/
def freshMovementId (ledger : List StockMovement) : Nat :=
  ledger.foldl (fun acc m => max acc (m.id + 1)) 0

/-- `StockService.record_movement` (`stock/services.py`). Returns the new
ledger and the committed movement, or the exception the code raises.
The advisory lock and the audit write are omitted (sequential model). -/
def record_movement (lots : List (Nat × NationalLot)) (ledger : List StockMovement)
    (entity_type : String) (entity_id lot_id : Nat)
    (movement_type : String) (quantity : Int)
    (reference_id : Option Nat) (reference_type : String) :
    Except Err (List StockMovement × StockMovement) :=
  if !(MOVEMENT_TYPE_CHOICES.contains movement_type) then
    .error (.businessRuleViolation "Invalid movement_type")
  else if quantity ≤ 0 then
    .error (.businessRuleViolation "Quantity must be positive.")
  else
    match getLot lots lot_id with
    | none => .error (.resourceNotFound "Lot not found.")
    | some lot =>
      if !lot.is_usable then
        .error (.businessRuleViolation "Lot is not usable for stock (blocked, expired, or recalled).")
      else if OUTBOUND_TYPES.contains movement_type &&
          _get_balance_orm ledger entity_type entity_id lot_id < quantity then
        .error (.insufficientStock "Insufficient stock")
      else
        let m : StockMovement :=
          { id := freshMovementId ledger
            entity_type := entity_type
            entity_id := entity_id
            lot_id := lot_id
            movement_type := movement_type
            quantity := quantity
            reference_id := reference_id
            reference_type := reference_type }
        .ok (ledger ++ [m], m)

/-- `StockService.process_b2b_transaction` (`stock/services.py`): quantity
check, seller balance check, lot usability check, then the B2B_OUT and
B2B_IN movements appended in this order, all inside one transaction. -/
def process_b2b_transaction (lots : List (Nat × NationalLot))
    (ledger : List StockMovement)
    (seller_entity_type : String) (seller_entity_id : Nat)
    (buyer_entity_type : String) (buyer_entity_id : Nat)
    (lot_id : Nat) (quantity : Int)
    (reference_id : Option Nat) (reference_type : String) :
    Except Err (List StockMovement × StockMovement × StockMovement) :=
  if quantity ≤ 0 then
    .error (.businessRuleViolation "Quantity must be positive.")
  else if _get_balance_orm ledger seller_entity_type seller_entity_id lot_id < quantity then
    .error (.insufficientStock "Insufficient seller stock")
  else
    match getLot lots lot_id with
    | none => .error (.resourceNotFound "Lot not found.")
    | some lot =>
      if !lot.is_usable then
        .error (.businessRuleViolation "Lot is not usable for stock.")
      else
        let ref_type := if reference_type == "" then "B2BOrder" else reference_type
        let out_movement : StockMovement :=
          { id := freshMovementId ledger
            entity_type := seller_entity_type
            entity_id := seller_entity_id
            lot_id := lot_id
            movement_type := "B2B_OUT"
            quantity := quantity
            reference_id := reference_id
            reference_type := ref_type }
        let in_movement : StockMovement :=
          { id := freshMovementId (ledger ++ [out_movement])
            entity_type := buyer_entity_type
            entity_id := buyer_entity_id
            lot_id := lot_id
            movement_type := "B2B_IN"
            quantity := quantity
            reference_id := reference_id
            reference_type := ref_type }
        .ok (ledger ++ [out_movement, in_movement], out_movement, in_movement)

/-- `StockMovement.save` override (`stock/models.py`): refuses to re-save a
record whose primary key is already stored (insert-only); otherwise the
row is inserted. `self.pk` is always set (uuid4 default). -/
def StockMovement.save (ledger : List StockMovement) (m : StockMovement) :
    Except Err (List StockMovement) :=
  if ledger.any (fun x => x.id == m.id) then
    .error (.notImplementedError "StockMovement is insert-only; updates are not allowed.")
  else
    .ok (ledger ++ [m])

/-- `StockMovement.delete` override (`stock/models.py`): always refuses. -/
def StockMovement.delete (_ledger : List StockMovement) (_m : StockMovement) :
    Except Err (List StockMovement) :=
  .error (.notImplementedError "StockMovement records cannot be deleted.")

/-- The spec's wording of the balance contract: sum of quantities of
inbound-classified movements minus sum of quantities of outbound-classified
movements over the stored movements for that holder+batch. -/
def balance_per_spec (ledger : List StockMovement)
    (entity_type : String) (entity_id lot_id : Nat) : Int :=
  let mine := ledger.filter (movementMatches entity_type entity_id lot_id)
  ((mine.filter (fun m => INBOUND_TYPES.contains m.movement_type)).map
      (fun m => m.quantity)).sum
  - ((mine.filter (fun m => OUTBOUND_TYPES.contains m.movement_type)).map
      (fun m => m.quantity)).sum

/-- `B2BOrder.StatusChoices` (`b2b/models.py`). -/
inductive Status where
  | DRAFT
  | SUBMITTED
  | APPROVED
  | IN_TRANSIT
  | DELIVERED
  | CANCELLED
  | REJECTED
  deriving DecidableEq, Repr, Fintype

/-- `ORDER_TRANSITIONS` (`b2b/services.py`). -/
def ORDER_TRANSITIONS : Status → List Status
  | .DRAFT => [.SUBMITTED, .CANCELLED]
  | .SUBMITTED => [.APPROVED, .REJECTED, .CANCELLED]
  | .APPROVED => [.IN_TRANSIT, .CANCELLED]
  | .IN_TRANSIT => [.DELIVERED, .CANCELLED]
  | .DELIVERED => []
  | .CANCELLED => []
  | .REJECTED => []

/-- `_assert_transition` (`b2b/services.py`). -/
def _assert_transition (status new_status : Status) : Except Err Unit :=
  if (ORDER_TRANSITIONS status).contains new_status then .ok ()
  else .error (.invalidStateTransition "Cannot transition order.")

/-- `pharmacies.Pharmacy`: fields consulted by the B2B core. -/
structure Pharmacy where
  pharmacy_type : String
  is_deleted : Bool
  deriving DecidableEq, Repr

/-- `PharmacyCredit` (`b2b/models.py`), keyed one-to-one by pharmacy. -/
structure PharmacyCredit where
  pharmacy_id : Nat
  credit_limit : Int
  current_balance : Int
  reserved_balance : Int
  deriving DecidableEq, Repr

/-- `B2BOrder` (`b2b/models.py`): fields the service layer reads/writes. -/
structure B2BOrder where
  id : Nat
  seller_id : Nat
  buyer_id : Nat
  status : Status
  total_amount : Int
  credit_used : Int
  price_override_approved : Bool
  is_deleted : Bool
  deriving DecidableEq, Repr

/-- `B2BOrderItem` (`b2b/models.py`). -/
structure B2BOrderItem where
  order_id : Nat
  lot_id : Nat
  quantity_ordered : Int
  quantity_delivered : Int
  unit_price : Int
  is_deleted : Bool
  deriving DecidableEq, Repr

/-- One row of the `items: list[dict]` payload of create/update: `lot_id`,
`quantity_ordered`, and optional `unit_price` (the code reads it with
`row.get(..., authorized_price)`). -/
structure ItemRow where
  lot_id : Nat
  quantity_ordered : Int
  unit_price : Option Int
  deriving DecidableEq, Repr

/-- The persistent state the stock/B2B core reads and writes. -/
structure World where
  lots : List (Nat × NationalLot)
  medicines : List (Nat × Medicine)
  pharmacies : List (Nat × Pharmacy)
  ledger : List StockMovement
  orders : List B2BOrder
  items : List B2BOrderItem
  credits : List PharmacyCredit
  deriving DecidableEq, Repr

/-- `B2BOrder.objects.get(pk=order_id, is_deleted=False)`. -/
def getOrder (orders : List B2BOrder) (order_id : Nat) : Option B2BOrder :=
  match orders with
  | [] => none
  | o :: rest =>
    if o.id == order_id && !o.is_deleted then some o else getOrder rest order_id

/-- Write back an order row by primary key. -/
def setOrder (orders : List B2BOrder) (o : B2BOrder) : List B2BOrder :=
  orders.map (fun x => if x.id == o.id then o else x)

/-- `PharmacyCredit.objects.get(pharmacy=...)` (one-to-one). -/
def getCredit (credits : List PharmacyCredit) (pharmacy_id : Nat) :
    Option PharmacyCredit :=
  match credits with
  | [] => none
  | c :: rest =>
    if c.pharmacy_id == pharmacy_id then some c else getCredit rest pharmacy_id

/-- Write back a credit row by its pharmacy key. -/
def setCredit (credits : List PharmacyCredit) (c : PharmacyCredit) :
    List PharmacyCredit :=
  credits.map (fun x => if x.pharmacy_id == c.pharmacy_id then c else x)

/-- `item.lot.medicine.authorized_price`: FK resolution (not filtered by
soft-delete). -/
def authorizedPrice (w : World) (lot_id : Nat) : Option Int :=
  match lookupBy w.lots lot_id with
  | none => none
  | some lot =>
    match lookupBy w.medicines lot.medicine_id with
    | none => none
    | some med => some med.authorized_price

/-- `order.items.filter(is_deleted=False)`. -/
def orderItems (w : World) (order_id : Nat) : List B2BOrderItem :=
  w.items.filter (fun it => it.order_id == order_id && !it.is_deleted)

/-- Loop body of `_validate_item_prices` over the selected items. -/
def validateItemsLoop (w : World) (override : Bool) :
    List B2BOrderItem → Except Err Unit
  | [] => .ok ()
  | it :: rest =>
    match authorizedPrice w it.lot_id with
    | none => .error (.doesNotExist "NationalLot")
    | some authorized =>
      if it.unit_price > authorized && !override then
        .error (.businessRuleViolation "Unit price exceeds authorized price for lot. Price override must be granted.")
      else validateItemsLoop w override rest

/-- `_validate_item_prices` (`b2b/services.py`). -/
def _validate_item_prices (w : World) (order : B2BOrder)
    (price_override_approved : Bool) : Except Err Unit :=
  validateItemsLoop w price_override_approved (orderItems w order.id)

/-- Deterministic fresh order primary key (uuid4 model). -/
def freshOrderId (orders : List B2BOrder) : Nat :=
  orders.foldl (fun acc o => max acc (o.id + 1)) 0

/-- Item-creation loop of `create_order`: usability check, price check
against the authorized price, positive-quantity check, running total. -/
def createOrderItems (lots : List (Nat × NationalLot))
    (medicines : List (Nat × Medicine)) (order_id : Nat) (override : Bool) :
    List ItemRow → Except Err (List B2BOrderItem × Int)
  | [] => .ok ([], 0)
  | row :: rest =>
    match getLot lots row.lot_id with
    | none => .error (.doesNotExist "NationalLot")
    | some lot =>
      if !lot.is_usable then
        .error (.businessRuleViolation "Lot is not usable for stock.")
      else
        match lookupBy medicines lot.medicine_id with
        | none => .error (.doesNotExist "Medicine")
        | some med =>
          let authorized := med.authorized_price
          let unit_price := row.unit_price.getD authorized
          if unit_price > authorized && !override then
            .error (.businessRuleViolation "Unit price exceeds authorized price for lot.")
          else if row.quantity_ordered ≤ 0 then
            .error (.businessRuleViolation "Quantity must be positive.")
          else
            match createOrderItems lots medicines order_id override rest with
            | .error e => .error e
            | .ok (items_rest, total_rest) =>
              .ok ({ order_id := order_id
                     lot_id := row.lot_id
                     quantity_ordered := row.quantity_ordered
                     quantity_delivered := 0
                     unit_price := unit_price
                     is_deleted := false } :: items_rest,
                   unit_price * row.quantity_ordered + total_rest)

/-- `B2BOrderService.create_order` (`b2b/services.py`): seller must be a
non-deleted WHOLESALER, buyer a non-deleted RETAILER; items created with
per-item price check; total accumulated. Returns the new world and the
new order id. -/
def create_order (w : World) (seller_id buyer_id : Nat) (rows : List ItemRow)
    (price_override_approved : Bool) : Except Err (World × Nat) :=
  match lookupBy w.pharmacies seller_id with
  | none => .error (.resourceNotFound "Seller pharmacy (WHOLESALER) not found.")
  | some seller =>
    if !(seller.pharmacy_type == "WHOLESALER" && !seller.is_deleted) then
      .error (.resourceNotFound "Seller pharmacy (WHOLESALER) not found.")
    else
      match lookupBy w.pharmacies buyer_id with
      | none => .error (.resourceNotFound "Buyer pharmacy (RETAILER) not found.")
      | some buyer =>
        if !(buyer.pharmacy_type == "RETAILER" && !buyer.is_deleted) then
          .error (.resourceNotFound "Buyer pharmacy (RETAILER) not found.")
        else
          let oid := freshOrderId w.orders
          match createOrderItems w.lots w.medicines oid price_override_approved rows with
          | .error e => .error e
          | .ok (new_items, total) =>
            let order : B2BOrder :=
              { id := oid
                seller_id := seller_id
                buyer_id := buyer_id
                status := .DRAFT
                total_amount := total
                credit_used := 0
                price_override_approved := price_override_approved
                is_deleted := false }
            .ok ({ w with orders := w.orders ++ [order]
                          items := w.items ++ new_items }, oid)

/-- Item-replacement loop of `update_draft_order`: usability and
positive-quantity checks only — the source performs no check of
`unit_price` against the authorized price here. -/
def updateOrderItems (lots : List (Nat × NationalLot))
    (medicines : List (Nat × Medicine)) (order_id : Nat) :
    List ItemRow → Except Err (List B2BOrderItem × Int)
  | [] => .ok ([], 0)
  | row :: rest =>
    match getLot lots row.lot_id with
    | none => .error (.doesNotExist "NationalLot")
    | some lot =>
      if !lot.is_usable then
        .error (.businessRuleViolation "Lot is not usable.")
      else
        match lookupBy medicines lot.medicine_id with
        | none => .error (.doesNotExist "Medicine")
        | some med =>
          let unit_price := row.unit_price.getD med.authorized_price
          if row.quantity_ordered ≤ 0 then
            .error (.businessRuleViolation "Quantity must be positive.")
          else
            match updateOrderItems lots medicines order_id rest with
            | .error e => .error e
            | .ok (items_rest, total_rest) =>
              .ok ({ order_id := order_id
                     lot_id := row.lot_id
                     quantity_ordered := row.quantity_ordered
                     quantity_delivered := 0
                     unit_price := unit_price
                     is_deleted := false } :: items_rest,
                   unit_price * row.quantity_ordered + total_rest)

/-- `B2BOrderService.update_draft_order` (`b2b/services.py`): DRAFT only;
optional toggle of `price_override_approved`; optional wholesale item
replacement (soft-delete existing, insert new, recompute total). -/
def update_draft_order (w : World) (order_id : Nat)
    (items_arg : Option (List ItemRow)) (override_arg : Option Bool) :
    Except Err World :=
  match getOrder w.orders order_id with
  | none => .error (.doesNotExist "B2BOrder")
  | some order =>
    if order.status != .DRAFT then
      .error (.invalidStateTransition "Only DRAFT orders can be updated.")
    else
      let order1 :=
        match override_arg with
        | some b => { order with price_override_approved := b }
        | none => order
      match items_arg with
      | none => .ok { w with orders := setOrder w.orders order1 }
      | some rows =>
        let tombstoned := w.items.map (fun it =>
          if it.order_id == order.id && !it.is_deleted then
            { it with is_deleted := true }
          else it)
        match updateOrderItems w.lots w.medicines order.id rows with
        | .error e => .error e
        | .ok (new_items, total) =>
          .ok { w with
                orders := setOrder w.orders { order1 with total_amount := total }
                items := tombstoned ++ new_items }

/-- `B2BOrderService.submit_order` (`b2b/services.py`). -/
def submit_order (w : World) (order_id : Nat) : Except Err World :=
  match getOrder w.orders order_id with
  | none => .error (.doesNotExist "B2BOrder")
  | some order =>
    match _assert_transition order.status .SUBMITTED with
    | .error e => .error e
    | .ok _ =>
      if (orderItems w order.id).isEmpty then
        .error (.businessRuleViolation "Order must have at least one item.")
      else
        .ok { w with orders := setOrder w.orders { order with status := .SUBMITTED } }

/-- The line `credit_used = credit_used or order.total_amount` of
`approve_order`: Python falsy-or, so both `None` and `Decimal(0)` fall
back to the order total. -/
def resolveCreditUsed (credit_used_arg : Option Int) (order : B2BOrder) : Int :=
  match credit_used_arg with
  | none => order.total_amount
  | some v => if v == 0 then order.total_amount else v

/-- `B2BOrderService.approve_order` (`b2b/services.py`): transition check,
price re-validation, `credit_used = credit_used or order.total_amount`,
then the credit availability check and reservation. -/
def approve_order (w : World) (order_id : Nat) (credit_used_arg : Option Int) :
    Except Err World :=
  match getOrder w.orders order_id with
  | none => .error (.doesNotExist "B2BOrder")
  | some order =>
    match _assert_transition order.status .APPROVED with
    | .error e => .error e
    | .ok _ =>
      match _validate_item_prices w order order.price_override_approved with
      | .error e => .error e
      | .ok _ =>
        let credit_used := resolveCreditUsed credit_used_arg order
        if credit_used > 0 then
          match getCredit w.credits order.buyer_id with
          | none => .error (.businessRuleViolation "Buyer has no credit line configured.")
          | some credit =>
            let available :=
              credit.credit_limit - credit.current_balance - credit.reserved_balance
            if available < credit_used then
              .error (.businessRuleViolation "Insufficient credit")
            else
              .ok { w with
                    credits := setCredit w.credits
                      { credit with reserved_balance := credit.reserved_balance + credit_used }
                    orders := setOrder w.orders
                      { order with credit_used := credit_used, status := .APPROVED } }
        else
          .ok { w with
                orders := setOrder w.orders
                  { order with credit_used := credit_used, status := .APPROVED } }

/-- `B2BOrderService.ship_order` (`b2b/services.py`): status-only. -/
def ship_order (w : World) (order_id : Nat) : Except Err World :=
  match getOrder w.orders order_id with
  | none => .error (.doesNotExist "B2BOrder")
  | some order =>
    match _assert_transition order.status .IN_TRANSIT with
    | .error e => .error e
    | .ok _ =>
      .ok { w with orders := setOrder w.orders { order with status := .IN_TRANSIT } }

/-- `B2BOrderService.reject_order` (`b2b/services.py`): status-only. -/
def reject_order (w : World) (order_id : Nat) : Except Err World :=
  match getOrder w.orders order_id with
  | none => .error (.doesNotExist "B2BOrder")
  | some order =>
    match _assert_transition order.status .REJECTED with
    | .error e => .error e
    | .ok _ =>
      .ok { w with orders := setOrder w.orders { order with status := .REJECTED } }

/-- Item loop of `deliver_order`: non-deleted items of the order with
positive quantity are transferred seller→buyer (`InsufficientStockError`
re-raised as `BusinessRuleViolation`) and get
`quantity_delivered = quantity_ordered`; other rows pass through. -/
def deliverLoop (lots : List (Nat × NationalLot)) (order : B2BOrder)
    (ledger : List StockMovement) :
    List B2BOrderItem → Except Err (List StockMovement × List B2BOrderItem)
  | [] => .ok (ledger, [])
  | it :: rest =>
    if it.order_id == order.id && !it.is_deleted && it.quantity_ordered > 0 then
      match process_b2b_transaction lots ledger "PHARMACY" order.seller_id
          "PHARMACY" order.buyer_id it.lot_id it.quantity_ordered
          (some order.id) "B2BOrder" with
      | .error (.insufficientStock _) =>
        .error (.businessRuleViolation "Seller insufficient stock for lot.")
      | .error e => .error e
      | .ok (ledger1, _, _) =>
        match deliverLoop lots order ledger1 rest with
        | .error e => .error e
        | .ok (ledger2, rest2) =>
          .ok (ledger2, { it with quantity_delivered := it.quantity_ordered } :: rest2)
    else
      match deliverLoop lots order ledger rest with
      | .error e => .error e
      | .ok (ledger2, rest2) => .ok (ledger2, it :: rest2)

/-- `B2BOrderService.deliver_order` (`b2b/services.py`): transition check,
per-item dual transfers, then the reserved→current credit settlement when
`credit_used > 0`, then status DELIVERED — all in one transaction. -/
def deliver_order (w : World) (order_id : Nat) : Except Err World :=
  match getOrder w.orders order_id with
  | none => .error (.doesNotExist "B2BOrder")
  | some order =>
    match _assert_transition order.status .DELIVERED with
    | .error e => .error e
    | .ok _ =>
      match deliverLoop w.lots order w.ledger w.items with
      | .error e => .error e
      | .ok (ledger1, items1) =>
        if order.credit_used > 0 then
          match getCredit w.credits order.buyer_id with
          | none => .error (.doesNotExist "PharmacyCredit")
          | some credit =>
            .ok { w with
                  ledger := ledger1
                  items := items1
                  credits := setCredit w.credits
                    { credit with
                      reserved_balance := credit.reserved_balance - order.credit_used
                      current_balance := credit.current_balance + order.credit_used }
                  orders := setOrder w.orders { order with status := .DELIVERED } }
        else
          .ok { w with
                ledger := ledger1
                items := items1
                orders := setOrder w.orders { order with status := .DELIVERED } }

/-- `B2BOrderService.cancel_order` (`b2b/services.py`): transition check,
explicit DELIVERED guard, reserved-credit release from APPROVED or
IN_TRANSIT when `credit_used > 0`, then status CANCELLED. -/
def cancel_order (w : World) (order_id : Nat) : Except Err World :=
  match getOrder w.orders order_id with
  | none => .error (.doesNotExist "B2BOrder")
  | some order =>
    match _assert_transition order.status .CANCELLED with
    | .error e => .error e
    | .ok _ =>
      if order.status == .DELIVERED then
        .error (.invalidStateTransition "Cannot cancel an already delivered order; use reversal flow.")
      else if (order.status == .APPROVED || order.status == .IN_TRANSIT)
          && order.credit_used > 0 then
        match getCredit w.credits order.buyer_id with
        | none => .error (.doesNotExist "PharmacyCredit")
        | some credit =>
          .ok { w with
                credits := setCredit w.credits
                  { credit with reserved_balance := credit.reserved_balance - order.credit_used }
                orders := setOrder w.orders { order with status := .CANCELLED } }
      else
        .ok { w with orders := setOrder w.orders { order with status := .CANCELLED } }

/-- Arguments of one `record_movement` call. -/
structure MovementRequest where
  entity_type : String
  entity_id : Nat
  lot_id : Nat
  movement_type : String
  quantity : Int
  reference_id : Option Nat
  reference_type : String
  deriving DecidableEq, Repr

/-- One `record_movement` call against the ledger: an accepted movement is
appended, a rejected one leaves the ledger unchanged (rollback). -/
def applyMovement (lots : List (Nat × NationalLot)) (ledger : List StockMovement)
    (r : MovementRequest) : List StockMovement :=
  match record_movement lots ledger r.entity_type r.entity_id r.lot_id
      r.movement_type r.quantity r.reference_id r.reference_type with
  | .ok (ledger1, _) => ledger1
  | .error _ => ledger

/-- A sequence of `record_movement` calls, applied in order. -/
def runMovements (lots : List (Nat × NationalLot)) (ledger : List StockMovement) :
    List MovementRequest → List StockMovement
  | [] => ledger
  | r :: rest => runMovements lots (applyMovement lots ledger r) rest

/-- Net effect of one delivered order item on the balance of the holder
`(entity_type, entity_id)` for lot `lot_id`: the item's transfer appends a
B2B_OUT for the seller and a B2B_IN for the buyer, both of
`quantity_ordered`, on the item's lot. -/
def itemDelta (order : B2BOrder) (entity_type : String) (entity_id lot_id : Nat)
    (it : B2BOrderItem) : Int :=
  (if entity_type == "PHARMACY" && entity_id == order.buyer_id && lot_id == it.lot_id
    then it.quantity_ordered else 0)
  - (if entity_type == "PHARMACY" && entity_id == order.seller_id && lot_id == it.lot_id
    then it.quantity_ordered else 0)

/-! Concrete records used to exercise the operations on closed inputs. -/

/-- A usable lot: ACTIVE, not expired, not soft-deleted. -/
def demoLot : NationalLot :=
  { medicine_id := 1, status := "ACTIVE", is_expired := false, is_deleted := false }

def demoLots : List (Nat × NationalLot) := [(1, demoLot)]

def demoMedicines : List (Nat × Medicine) := [(1, { authorized_price := 100 })]

def demoPharmacies : List (Nat × Pharmacy) :=
  [(1, { pharmacy_type := "WHOLESALER", is_deleted := false }),
   (2, { pharmacy_type := "RETAILER", is_deleted := false })]

/-- An IMPORT of 100 units of lot 1 held by pharmacy 1. -/
def demoImport : StockMovement :=
  { id := 0, entity_type := "PHARMACY", entity_id := 1, lot_id := 1,
    movement_type := "IMPORT", quantity := 100,
    reference_id := none, reference_type := "" }

def demoOrderDraft : B2BOrder :=
  { id := 1, seller_id := 1, buyer_id := 2, status := .DRAFT,
    total_amount := 0, credit_used := 0,
    price_override_approved := false, is_deleted := false }

def demoWorldDraft : World :=
  { lots := demoLots, medicines := demoMedicines, pharmacies := demoPharmacies,
    ledger := [], orders := [demoOrderDraft], items := [], credits := [] }

def demoOrderSubmitted : B2BOrder :=
  { id := 1, seller_id := 1, buyer_id := 2, status := .SUBMITTED,
    total_amount := 1000, credit_used := 0,
    price_override_approved := false, is_deleted := false }

/-- A correctly priced item of order 1 (authorized price is 100). -/
def demoItemOk : B2BOrderItem :=
  { order_id := 1, lot_id := 1, quantity_ordered := 10,
    quantity_delivered := 0, unit_price := 100, is_deleted := false }

def demoCredit : PharmacyCredit :=
  { pharmacy_id := 2, credit_limit := 1000000,
    current_balance := 0, reserved_balance := 0 }

def demoWorldSubmitted : World :=
  { lots := demoLots, medicines := demoMedicines, pharmacies := demoPharmacies,
    ledger := [], orders := [demoOrderSubmitted], items := [demoItemOk],
    credits := [demoCredit] }

def demoOrderDelivered : B2BOrder :=
  { id := 1, seller_id := 1, buyer_id := 2, status := .DELIVERED,
    total_amount := 1000, credit_used := 1000,
    price_override_approved := false, is_deleted := false }

def demoWorldDelivered : World :=
  { lots := demoLots, medicines := demoMedicines, pharmacies := demoPharmacies,
    ledger := [], orders := [demoOrderDelivered], items := [], credits := [demoCredit] }

def demoOrderInTransit : B2BOrder :=
  { id := 1, seller_id := 1, buyer_id := 2, status := .IN_TRANSIT,
    total_amount := 1000, credit_used := 1000,
    price_override_approved := false, is_deleted := false }

def demoWorldInTransit : World :=
  { lots := demoLots, medicines := demoMedicines, pharmacies := demoPharmacies,
    ledger := [demoImport], orders := [demoOrderInTransit], items := [demoItemOk],
    credits := [{ pharmacy_id := 2, credit_limit := 1000000,
                  current_balance := 0, reserved_balance := 1000 }] }

/-- IMPORT 10 then SALE 4, both for pharmacy 7 and lot 1. -/
def demoRequests : List MovementRequest :=
  [{ entity_type := "PHARMACY", entity_id := 7, lot_id := 1,
     movement_type := "IMPORT", quantity := 10,
     reference_id := none, reference_type := "" },
   { entity_type := "PHARMACY", entity_id := 7, lot_id := 1,
     movement_type := "SALE", quantity := 4,
     reference_id := none, reference_type := "" }]

/-- The B2B_OUT side of a transfer of 10 units of lot 1 from pharmacy 1. -/
def demoOut : StockMovement :=
  { id := 1, entity_type := "PHARMACY", entity_id := 1, lot_id := 1,
    movement_type := "B2B_OUT", quantity := 10,
    reference_id := none, reference_type := "B2BOrder" }

/-- The B2B_IN side of the same transfer, to pharmacy 2. -/
def demoIn : StockMovement :=
  { id := 2, entity_type := "PHARMACY", entity_id := 2, lot_id := 1,
    movement_type := "B2B_IN", quantity := 10,
    reference_id := none, reference_type := "B2BOrder" }

/-- The world after approving order 1 of `demoWorldSubmitted` on credit:
the full total (1000) is reserved and the order is APPROVED. -/
def demoWorldApproved : World :=
  { lots := demoLots, medicines := demoMedicines, pharmacies := demoPharmacies,
    ledger := [],
    orders := [{ demoOrderSubmitted with credit_used := 1000, status := .APPROVED }],
    items := [demoItemOk],
    credits := [{ demoCredit with reserved_balance := 1000 }] }

/-- A correctly priced creation row (authorized price is 100). -/
def demoRowOk : ItemRow :=
  { lot_id := 1, quantity_ordered := 5, unit_price := some 100 }

/-- The item `create_order` makes from `demoRowOk` on the fresh order 2. -/
def demoCreatedItem : B2BOrderItem :=
  { order_id := 2, lot_id := 1, quantity_ordered := 5,
    quantity_delivered := 0, unit_price := 100, is_deleted := false }

/-- `demoWorldDraft` after creating order 2 with `demoRowOk`. -/
def demoWorldCreated : World :=
  { lots := demoLots, medicines := demoMedicines, pharmacies := demoPharmacies,
    ledger := [],
    orders := [demoOrderDraft,
      { id := 2, seller_id := 1, buyer_id := 2, status := .DRAFT,
        total_amount := 500, credit_used := 0,
        price_override_approved := false, is_deleted := false }],
    items := [demoCreatedItem], credits := [] }

/-- `demoWorldInTransit` after delivery: 10 units of lot 1 moved from
pharmacy 1 to pharmacy 2, item delivered in full, 1000 settled from
reserved to current, order DELIVERED. -/
def demoWorldAfterDeliver : World :=
  { lots := demoLots, medicines := demoMedicines, pharmacies := demoPharmacies,
    ledger := [demoImport,
      { id := 1, entity_type := "PHARMACY", entity_id := 1, lot_id := 1,
        movement_type := "B2B_OUT", quantity := 10,
        reference_id := some 1, reference_type := "B2BOrder" },
      { id := 2, entity_type := "PHARMACY", entity_id := 2, lot_id := 1,
        movement_type := "B2B_IN", quantity := 10,
        reference_id := some 1, reference_type := "B2BOrder" }],
    orders := [{ demoOrderInTransit with status := .DELIVERED }],
    items := [{ demoItemOk with quantity_delivered := 10 }],
    credits := [{ pharmacy_id := 2, credit_limit := 1000000,
                  current_balance := 1000, reserved_balance := 0 }] }

/-- The arguments of an accepted IMPORT of 100 units (pharmacy 1, lot 1). -/
def demoImportRequest : MovementRequest :=
  { entity_type := "PHARMACY", entity_id := 1, lot_id := 1,
    movement_type := "IMPORT", quantity := 100,
    reference_id := none, reference_type := "" }

/-! ## Theorems -/

/-- Conditional-sum aggregation equals the sum over the filtered rows. -/
theorem sum_case_eq_sum_filter (p : StockMovement → Bool) :
    ∀ l : List StockMovement,
      (l.map (fun m => if p m then m.quantity else 0)).sum
        = ((l.filter p).map (fun m => m.quantity)).sum
  | [] => rfl
  | m :: rest => by
    by_cases h : p m <;>
      simp [List.filter_cons, h, sum_case_eq_sum_filter p rest]

/-- The inbound conditional sum equals the plain sum over inbound rows. -/
theorem sum_inboundCase (l : List StockMovement) :
    (l.map inboundCase).sum
      = ((l.filter (fun m => INBOUND_TYPES.contains m.movement_type)).map
          (fun m => m.quantity)).sum :=
  sum_case_eq_sum_filter (fun m => INBOUND_TYPES.contains m.movement_type) l

/-- The outbound conditional sum equals the plain sum over outbound rows. -/
theorem sum_outboundCase (l : List StockMovement) :
    (l.map outboundCase).sum
      = ((l.filter (fun m => OUTBOUND_TYPES.contains m.movement_type)).map
          (fun m => m.quantity)).sum :=
  sum_case_eq_sum_filter (fun m => OUTBOUND_TYPES.contains m.movement_type) l

/-- C1: `get_balance` returns, for the given holder and lot, the sum of
quantities of inbound-classified movements (IMPORT, B2B_IN, RETURN,
ADJUSTMENT) minus the sum of quantities of outbound-classified movements
(B2B_OUT, SALE, RECALL_REMOVAL) over the stored movements for that
holder+batch, and returns 0 when no movement matches. -/
theorem get_balance_eq_inbound_minus_outbound :
    ∀ (ledger : List StockMovement) (entity_type : String) (entity_id lot_id : Nat),
      _get_balance_orm ledger entity_type entity_id lot_id
        = balance_per_spec ledger entity_type entity_id lot_id
      ∧ _get_balance_orm [] entity_type entity_id lot_id = 0 := by
  intro ledger entity_type entity_id lot_id
  refine ⟨?_, rfl⟩
  unfold _get_balance_orm balance_per_spec
  dsimp only
  rw [sum_inboundCase, sum_outboundCase]

/-- Appending one movement shifts a balance by that movement's signed
contribution. -/
theorem balance_append (ledger : List StockMovement) (m : StockMovement)
    (entity_type : String) (entity_id lot_id : Nat) :
    _get_balance_orm (ledger ++ [m]) entity_type entity_id lot_id
      = _get_balance_orm ledger entity_type entity_id lot_id
        + (if movementMatches entity_type entity_id lot_id m
            then inboundCase m - outboundCase m else 0) := by
  unfold _get_balance_orm
  dsimp only
  rw [List.filter_append]
  by_cases h : movementMatches entity_type entity_id lot_id m
  · simp [List.filter_cons, h]
    ring
  · simp [List.filter_cons, h]

/-- Every recognized movement kind is classified inbound or outbound. -/
theorem valid_type_inbound_or_outbound (t : String)
    (h : MOVEMENT_TYPE_CHOICES.contains t = true) :
    INBOUND_TYPES.contains t = true ∨ OUTBOUND_TYPES.contains t = true := by
  simp [MOVEMENT_TYPE_CHOICES] at h
  simp [INBOUND_TYPES, OUTBOUND_TYPES]
  tauto

/-- The outbound classification excludes the inbound one. -/
theorem outbound_not_inbound (t : String)
    (h : OUTBOUND_TYPES.contains t = true) :
    INBOUND_TYPES.contains t = false := by
  simp [OUTBOUND_TYPES] at h
  rcases h with h | h | h <;> subst h <;> decide

/-- The inbound classification excludes the outbound one. -/
theorem inbound_not_outbound (t : String)
    (h : INBOUND_TYPES.contains t = true) :
    OUTBOUND_TYPES.contains t = false := by
  simp [INBOUND_TYPES] at h
  rcases h with h | h | h | h <;> subst h <;> decide

/-- What a successful `record_movement` guarantees: the committed movement
carries the requested fields, the ledger grew by exactly that movement, the
kind is recognized, the quantity is positive, and an outbound movement was
covered by the pre-call balance. -/
theorem record_movement_ok (lots : List (Nat × NationalLot))
    (ledger l' : List StockMovement) (m : StockMovement)
    (entity_type : String) (entity_id lot_id : Nat)
    (movement_type : String) (quantity : Int)
    (reference_id : Option Nat) (reference_type : String)
    (h : record_movement lots ledger entity_type entity_id lot_id movement_type
          quantity reference_id reference_type = .ok (l', m)) :
    l' = ledger ++ [m]
    ∧ m.entity_type = entity_type ∧ m.entity_id = entity_id ∧ m.lot_id = lot_id
    ∧ m.movement_type = movement_type ∧ m.quantity = quantity
    ∧ MOVEMENT_TYPE_CHOICES.contains movement_type = true
    ∧ 0 < quantity
    ∧ (OUTBOUND_TYPES.contains movement_type = true →
        quantity ≤ _get_balance_orm ledger entity_type entity_id lot_id) := by
  unfold record_movement at h
  split at h
  case isTrue => exact absurd h (by simp)
  case isFalse h1 =>
    split at h
    case isTrue => exact absurd h (by simp)
    case isFalse h2 =>
      split at h
      case h_1 => exact absurd h (by simp)
      case h_2 lot hlot =>
        split at h
        case isTrue => exact absurd h (by simp)
        case isFalse h3 =>
          split at h
          case isTrue => exact absurd h (by simp)
          case isFalse h4 =>
            dsimp only at h
            simp only [Except.ok.injEq, Prod.mk.injEq] at h
            obtain ⟨hl, hm⟩ := h
            subst hm
            refine ⟨hl.symm, rfl, rfl, rfl, rfl, rfl, ?_, ?_, ?_⟩
            · simpa using h1
            · omega
            · intro hout
              have hout' : movement_type ∈ OUTBOUND_TYPES := by simpa using hout
              have hnl : ¬(_get_balance_orm ledger entity_type entity_id lot_id < quantity) := by
                intro hlt
                exact h4 (by simp [hout', hlt])
              omega

/-- One call through `applyMovement` preserves non-negativity of every
holder+lot balance. -/
theorem applyMovement_balance (lots : List (Nat × NationalLot))
    (ledger : List StockMovement) (r : MovementRequest)
    (et : String) (eid lid : Nat)
    (hpos : 0 ≤ _get_balance_orm ledger et eid lid) :
    0 ≤ _get_balance_orm (applyMovement lots ledger r) et eid lid := by
  unfold applyMovement
  split
  case h_2 => exact hpos
  case h_1 l1 m heq =>
    obtain ⟨hl, het, heid, hlid, hmt, hq, hchoices, hqpos, hguard⟩ :=
      record_movement_ok lots ledger l1 m r.entity_type r.entity_id r.lot_id
        r.movement_type r.quantity r.reference_id r.reference_type heq
    subst hl
    rw [balance_append]
    by_cases hmatch : movementMatches et eid lid m
    · have hmatch' := hmatch
      simp only [movementMatches, Bool.and_eq_true, beq_iff_eq] at hmatch'
      obtain ⟨⟨het', heid'⟩, hlid'⟩ := hmatch'
      have hetr : et = r.entity_type := het'.symm.trans het
      have heidr : eid = r.entity_id := heid'.symm.trans heid
      have hlidr : lid = r.lot_id := hlid'.symm.trans hlid
      subst hetr; subst heidr; subst hlidr
      rcases valid_type_inbound_or_outbound r.movement_type hchoices with hin | hout
      · have hin' : m.movement_type ∈ INBOUND_TYPES := by
          rw [hmt]; simpa using hin
        have hno' : m.movement_type ∉ OUTBOUND_TYPES := by
          rw [hmt]; simpa using inbound_not_outbound r.movement_type hin
        simp [hmatch, inboundCase, outboundCase, hin', hno']
        omega
      · have hout' : m.movement_type ∈ OUTBOUND_TYPES := by
          rw [hmt]; simpa using hout
        have hni' : m.movement_type ∉ INBOUND_TYPES := by
          rw [hmt]; simpa using outbound_not_inbound r.movement_type hout
        have hcover := hguard hout
        simp [hmatch, inboundCase, outboundCase, hout', hni']
        omega
    · simp [hmatch]
      exact hpos

/-- Running any request sequence preserves non-negativity of balances. -/
theorem runMovements_balance_nonneg (lots : List (Nat × NationalLot))
    (rs : List MovementRequest) :
    ∀ ledger : List StockMovement,
      (∀ (et : String) (eid lid : Nat), 0 ≤ _get_balance_orm ledger et eid lid) →
      ∀ (et : String) (eid lid : Nat),
        0 ≤ _get_balance_orm (runMovements lots ledger rs) et eid lid := by
  induction rs with
  | nil => intro ledger h et eid lid; exact h et eid lid
  | cons r rest ih =>
    intro ledger h et eid lid
    exact ih (applyMovement lots ledger r)
      (fun et eid lid => applyMovement_balance lots ledger r et eid lid (h et eid lid))
      et eid lid

/-- C2: starting from an empty ledger, after any sequence of
`record_movement` calls (accepted ones append, rejected ones change
nothing) every holder+batch balance is non-negative; an outbound movement
is accepted only when the pre-call balance covers its quantity, and an
accepted inbound movement increases the balance by exactly its quantity. -/
theorem record_movement_balance_invariant (lots : List (Nat × NationalLot)) :
    (∀ (rs : List MovementRequest) (et : String) (eid lid : Nat),
        0 ≤ _get_balance_orm (runMovements lots [] rs) et eid lid)
    ∧ (∀ (ledger l' : List StockMovement) (m : StockMovement) (r : MovementRequest),
        record_movement lots ledger r.entity_type r.entity_id r.lot_id
            r.movement_type r.quantity r.reference_id r.reference_type = .ok (l', m) →
        (OUTBOUND_TYPES.contains r.movement_type = true →
            r.quantity ≤ _get_balance_orm ledger r.entity_type r.entity_id r.lot_id)
        ∧ (INBOUND_TYPES.contains r.movement_type = true →
            _get_balance_orm l' r.entity_type r.entity_id r.lot_id
              = _get_balance_orm ledger r.entity_type r.entity_id r.lot_id
                + r.quantity)) := by
  constructor
  · intro rs et eid lid
    exact runMovements_balance_nonneg lots rs [] (fun _ _ _ => le_refl 0) et eid lid
  · intro ledger l' m r heq
    obtain ⟨hl, het, heid, hlid, hmt, hq, hchoices, hqpos, hguard⟩ :=
      record_movement_ok lots ledger l' m r.entity_type r.entity_id r.lot_id
        r.movement_type r.quantity r.reference_id r.reference_type heq
    refine ⟨hguard, ?_⟩
    intro hin
    subst hl
    rw [balance_append]
    have hmatch : movementMatches r.entity_type r.entity_id r.lot_id m = true := by
      simp [movementMatches, het, heid, hlid]
    have hin' : m.movement_type ∈ INBOUND_TYPES := by
      rw [hmt]; simpa using hin
    have hno' : m.movement_type ∉ OUTBOUND_TYPES := by
      rw [hmt]; simpa using inbound_not_outbound r.movement_type hin
    simp [hmatch, inboundCase, outboundCase, hin', hno', hq]

/-- Witness: a concrete accepted IMPORT/SALE sequence keeps the balance
non-negative, and a concrete accepted IMPORT adds its quantity. -/
theorem record_movement_balance_invariant_witness :
    0 ≤ _get_balance_orm (runMovements demoLots [] demoRequests) "PHARMACY" 7 1
    ∧ _get_balance_orm [demoImport] "PHARMACY" 1 1
        = _get_balance_orm [] "PHARMACY" 1 1 + 100 := by
  constructor
  · exact (record_movement_balance_invariant demoLots).1 demoRequests "PHARMACY" 7 1
  · exact ((record_movement_balance_invariant demoLots).2 [] [demoImport] demoImport
      demoImportRequest (by decide)).2 (by decide)

/-- A movement whose holder differs from the given holder never matches the
balance filter. -/
theorem movementMatches_false_of_ne (et : String) (eid lid : Nat)
    (m : StockMovement) (h : ¬(m.entity_type = et ∧ m.entity_id = eid)) :
    movementMatches et eid lid m = false := by
  apply Bool.eq_false_iff.mpr
  intro hc
  simp only [movementMatches, Bool.and_eq_true, beq_iff_eq] at hc
  exact h ⟨hc.1.1, hc.1.2⟩

/-- C3: a successful `process_b2b_transaction` appends exactly one B2B_OUT
movement for the seller and one B2B_IN movement for the buyer, both of the
requested quantity and with the same reference, in one transaction; the
seller balance drops by exactly the quantity and the buyer balance rises by
exactly the quantity. The call fails (so that, by the transactional model,
no movement becomes visible and no balance changes) exactly when the
quantity is non-positive, the seller balance does not cover the quantity,
or the lot is missing or not usable. -/
theorem process_b2b_transaction_atomic_paired
    (lots : List (Nat × NationalLot)) (ledger : List StockMovement)
    (seller_entity_type : String) (seller_entity_id : Nat)
    (buyer_entity_type : String) (buyer_entity_id : Nat)
    (lot_id : Nat) (quantity : Int)
    (reference_id : Option Nat) (reference_type : String)
    (hdistinct : ¬(seller_entity_type = buyer_entity_type
        ∧ seller_entity_id = buyer_entity_id)) :
    (∀ (l' : List StockMovement) (om im : StockMovement),
        process_b2b_transaction lots ledger seller_entity_type seller_entity_id
            buyer_entity_type buyer_entity_id lot_id quantity reference_id
            reference_type = .ok (l', om, im) →
        l' = ledger ++ [om, im]
        ∧ om.movement_type = "B2B_OUT" ∧ om.entity_type = seller_entity_type
        ∧ om.entity_id = seller_entity_id ∧ om.lot_id = lot_id
        ∧ om.quantity = quantity
        ∧ im.movement_type = "B2B_IN" ∧ im.entity_type = buyer_entity_type
        ∧ im.entity_id = buyer_entity_id ∧ im.lot_id = lot_id
        ∧ im.quantity = quantity
        ∧ om.reference_id = reference_id ∧ im.reference_id = reference_id
        ∧ om.reference_type = im.reference_type
        ∧ _get_balance_orm l' seller_entity_type seller_entity_id lot_id
            = _get_balance_orm ledger seller_entity_type seller_entity_id lot_id
              - quantity
        ∧ _get_balance_orm l' buyer_entity_type buyer_entity_id lot_id
            = _get_balance_orm ledger buyer_entity_type buyer_entity_id lot_id
              + quantity)
    ∧ ((∃ e, process_b2b_transaction lots ledger seller_entity_type
            seller_entity_id buyer_entity_type buyer_entity_id lot_id quantity
            reference_id reference_type = .error e) ↔
        (quantity ≤ 0
          ∨ _get_balance_orm ledger seller_entity_type seller_entity_id lot_id
              < quantity
          ∨ getLot lots lot_id = none
          ∨ ∃ lot, getLot lots lot_id = some lot ∧ lot.is_usable = false)) := by
  constructor
  · intro l' om im h
    unfold process_b2b_transaction at h
    split at h
    case isTrue => exact absurd h (by simp)
    case isFalse h1 =>
      split at h
      case isTrue => exact absurd h (by simp)
      case isFalse h2 =>
        split at h
        case h_1 => exact absurd h (by simp)
        case h_2 lot hlot =>
          split at h
          case isTrue => exact absurd h (by simp)
          case isFalse h3 =>
            dsimp only at h
            simp only [Except.ok.injEq, Prod.mk.injEq] at h
            obtain ⟨hl, hom, him⟩ := h
            have hom_et : om.entity_type = seller_entity_type := by rw [← hom]
            have hom_eid : om.entity_id = seller_entity_id := by rw [← hom]
            have hom_lot : om.lot_id = lot_id := by rw [← hom]
            have hom_mt : om.movement_type = "B2B_OUT" := by rw [← hom]
            have hom_q : om.quantity = quantity := by rw [← hom]
            have hom_rid : om.reference_id = reference_id := by rw [← hom]
            have him_et : im.entity_type = buyer_entity_type := by rw [← him]
            have him_eid : im.entity_id = buyer_entity_id := by rw [← him]
            have him_lot : im.lot_id = lot_id := by rw [← him]
            have him_mt : im.movement_type = "B2B_IN" := by rw [← him]
            have him_q : im.quantity = quantity := by rw [← him]
            have him_rid : im.reference_id = reference_id := by rw [← him]
            have hrt : om.reference_type = im.reference_type := by rw [← hom, ← him]
            rw [him, hom] at hl
            subst hl
            have hd1 : "B2B_OUT" ∉ INBOUND_TYPES := by decide
            have hd2 : "B2B_OUT" ∈ OUTBOUND_TYPES := by decide
            have hd3 : "B2B_IN" ∈ INBOUND_TYPES := by decide
            have hd4 : "B2B_IN" ∉ OUTBOUND_TYPES := by decide
            have hsplit : ledger ++ [om, im] = (ledger ++ [om]) ++ [im] := by simp
            refine ⟨rfl, hom_mt, hom_et, hom_eid, hom_lot, hom_q, him_mt, him_et,
              him_eid, him_lot, him_q, hom_rid, him_rid, hrt, ?_, ?_⟩
            · rw [hsplit, balance_append, balance_append,
                movementMatches_false_of_ne seller_entity_type seller_entity_id lot_id im
                  (fun hc => hdistinct ⟨hc.1.symm.trans him_et, hc.2.symm.trans him_eid⟩)]
              have hmm : movementMatches seller_entity_type seller_entity_id lot_id om
                  = true := by
                simp [movementMatches, hom_et, hom_eid, hom_lot]
              simp [hmm, inboundCase, outboundCase, hom_mt, hd1, hd2, hom_q]
              ring
            · rw [hsplit, balance_append, balance_append,
                movementMatches_false_of_ne buyer_entity_type buyer_entity_id lot_id om
                  (fun hc => hdistinct
                    ⟨(hc.1.symm.trans hom_et).symm, (hc.2.symm.trans hom_eid).symm⟩)]
              have hmm : movementMatches buyer_entity_type buyer_entity_id lot_id im
                  = true := by
                simp [movementMatches, him_et, him_eid, him_lot]
              simp [hmm, inboundCase, outboundCase, him_mt, hd3, hd4, him_q]
  · by_cases h1 : quantity ≤ 0
    · simp [process_b2b_transaction, h1]
    · by_cases h2 : _get_balance_orm ledger seller_entity_type seller_entity_id lot_id
          < quantity
      · simp [process_b2b_transaction, h1, h2]
      · cases h3 : getLot lots lot_id with
        | none => simp [process_b2b_transaction, h1, h2, h3]
        | some lot =>
          by_cases h4 : lot.is_usable
          · simp [process_b2b_transaction, h1, h2, h3, h4]
          · simp [process_b2b_transaction, h1, h2, h3, h4]

/-- Witness: transferring 10 units of lot 1 from pharmacy 1 (holding 100)
to pharmacy 2 moves the two balances by exactly 10. -/
theorem process_b2b_transaction_atomic_paired_witness :
    _get_balance_orm ([demoImport] ++ [demoOut, demoIn]) "PHARMACY" 1 1
      = _get_balance_orm [demoImport] "PHARMACY" 1 1 - 10
    ∧ _get_balance_orm ([demoImport] ++ [demoOut, demoIn]) "PHARMACY" 2 1
      = _get_balance_orm [demoImport] "PHARMACY" 2 1 + 10 := by
  have h := (process_b2b_transaction_atomic_paired demoLots [demoImport] "PHARMACY" 1
      "PHARMACY" 2 1 10 none "" (by decide)).1
      ([demoImport] ++ [demoOut, demoIn]) demoOut demoIn (by decide)
  obtain ⟨_, _, _, _, _, _, _, _, _, _, _, _, _, _, hs, hb⟩ := h
  exact ⟨hs, hb⟩

/-- C4: the order state machine allows exactly
DRAFT→SUBMITTED/CANCELLED, SUBMITTED→APPROVED/REJECTED/CANCELLED,
APPROVED→IN_TRANSIT/CANCELLED, IN_TRANSIT→DELIVERED/CANCELLED, and nothing
out of DELIVERED, CANCELLED or REJECTED; every lifecycle operation whose
target transition is not allowed from the order's current status fails with
`InvalidStateTransition` (and, by the transactional model, leaves the order
and every other record unchanged). -/
theorem order_state_machine_transitions :
    (∀ s t : Status, (ORDER_TRANSITIONS s).contains t = true ↔
        ((s = .DRAFT ∧ (t = .SUBMITTED ∨ t = .CANCELLED))
          ∨ (s = .SUBMITTED ∧ (t = .APPROVED ∨ t = .REJECTED ∨ t = .CANCELLED))
          ∨ (s = .APPROVED ∧ (t = .IN_TRANSIT ∨ t = .CANCELLED))
          ∨ (s = .IN_TRANSIT ∧ (t = .DELIVERED ∨ t = .CANCELLED))))
    ∧ (∀ (w : World) (order_id : Nat) (order : B2BOrder),
        getOrder w.orders order_id = some order →
        ((ORDER_TRANSITIONS order.status).contains .SUBMITTED = false →
            ∃ d, submit_order w order_id = .error (.invalidStateTransition d))
        ∧ (∀ arg, (ORDER_TRANSITIONS order.status).contains .APPROVED = false →
            ∃ d, approve_order w order_id arg = .error (.invalidStateTransition d))
        ∧ ((ORDER_TRANSITIONS order.status).contains .IN_TRANSIT = false →
            ∃ d, ship_order w order_id = .error (.invalidStateTransition d))
        ∧ ((ORDER_TRANSITIONS order.status).contains .DELIVERED = false →
            ∃ d, deliver_order w order_id = .error (.invalidStateTransition d))
        ∧ ((ORDER_TRANSITIONS order.status).contains .CANCELLED = false →
            ∃ d, cancel_order w order_id = .error (.invalidStateTransition d))
        ∧ ((ORDER_TRANSITIONS order.status).contains .REJECTED = false →
            ∃ d, reject_order w order_id = .error (.invalidStateTransition d))) := by
  constructor
  · decide
  · intro w order_id order horder
    refine ⟨?_, ?_, ?_, ?_, ?_, ?_⟩
    · intro h
      have hmem : Status.SUBMITTED ∉ ORDER_TRANSITIONS order.status := by simpa using h
      exact ⟨"Cannot transition order.",
        by simp [submit_order, horder, _assert_transition, hmem]⟩
    · intro arg h
      have hmem : Status.APPROVED ∉ ORDER_TRANSITIONS order.status := by simpa using h
      exact ⟨"Cannot transition order.",
        by simp [approve_order, horder, _assert_transition, hmem]⟩
    · intro h
      have hmem : Status.IN_TRANSIT ∉ ORDER_TRANSITIONS order.status := by simpa using h
      exact ⟨"Cannot transition order.",
        by simp [ship_order, horder, _assert_transition, hmem]⟩
    · intro h
      have hmem : Status.DELIVERED ∉ ORDER_TRANSITIONS order.status := by simpa using h
      exact ⟨"Cannot transition order.",
        by simp [deliver_order, horder, _assert_transition, hmem]⟩
    · intro h
      have hmem : Status.CANCELLED ∉ ORDER_TRANSITIONS order.status := by simpa using h
      exact ⟨"Cannot transition order.",
        by simp [cancel_order, horder, _assert_transition, hmem]⟩
    · intro h
      have hmem : Status.REJECTED ∉ ORDER_TRANSITIONS order.status := by simpa using h
      exact ⟨"Cannot transition order.",
        by simp [reject_order, horder, _assert_transition, hmem]⟩

/-- Witness: on a DELIVERED order every further transition attempt fails
with `InvalidStateTransition`. -/
theorem order_state_machine_transitions_witness :
    (∃ d, submit_order demoWorldDelivered 1 = .error (.invalidStateTransition d))
    ∧ (∃ d, cancel_order demoWorldDelivered 1 = .error (.invalidStateTransition d)) := by
  have h := order_state_machine_transitions.2 demoWorldDelivered 1 demoOrderDelivered
    (by decide)
  exact ⟨h.1 (by decide), h.2.2.2.2.1 (by decide)⟩

/-- C8: the movement ledger is insert-only — re-saving a movement whose
primary key is already stored, or deleting any movement, fails with the
immutability error (so no stored movement is ever altered or removed). -/
theorem stock_movement_insert_only (ledger : List StockMovement) (m : StockMovement) :
    (ledger.any (fun x => x.id == m.id) = true →
        StockMovement.save ledger m
          = .error (.notImplementedError
              "StockMovement is insert-only; updates are not allowed."))
    ∧ StockMovement.delete ledger m
        = .error (.notImplementedError "StockMovement records cannot be deleted.") := by
  constructor
  · intro h
    simp [StockMovement.save, h]
  · rfl

/-- Witness: re-saving the stored IMPORT movement is refused. -/
theorem stock_movement_insert_only_witness :
    StockMovement.save [demoImport] demoImport
      = .error (.notImplementedError
          "StockMovement is insert-only; updates are not allowed.") :=
  (stock_movement_insert_only [demoImport] demoImport).1 (by decide)

/-- C9: `record_movement` with a non-positive quantity or an unrecognized
movement kind fails with the invalid-movement business-rule error (the
code raises `BusinessRuleViolation` at these two guards) and appends
nothing. -/
theorem record_movement_rejects_invalid (lots : List (Nat × NationalLot))
    (ledger : List StockMovement) (entity_type : String) (entity_id lot_id : Nat)
    (movement_type : String) (quantity : Int)
    (reference_id : Option Nat) (reference_type : String)
    (h : quantity ≤ 0 ∨ MOVEMENT_TYPE_CHOICES.contains movement_type = false) :
    ∃ d, record_movement lots ledger entity_type entity_id lot_id movement_type
        quantity reference_id reference_type = .error (.businessRuleViolation d) := by
  rcases h with h | h
  · by_cases h1 : MOVEMENT_TYPE_CHOICES.contains movement_type = true
    · have hm : movement_type ∈ MOVEMENT_TYPE_CHOICES := by simpa using h1
      exact ⟨"Quantity must be positive.", by simp [record_movement, hm, h]⟩
    · have hm : movement_type ∉ MOVEMENT_TYPE_CHOICES := by simpa using h1
      exact ⟨"Invalid movement_type", by simp [record_movement, hm]⟩
  · have hm : movement_type ∉ MOVEMENT_TYPE_CHOICES := by simpa using h
    exact ⟨"Invalid movement_type", by simp [record_movement, hm]⟩

/-- Witness: a SALE of quantity 0 is rejected as a business-rule error. -/
theorem record_movement_rejects_invalid_witness :
    ∃ d, record_movement demoLots [] "PHARMACY" 1 1 "SALE" 0 none ""
        = .error (.businessRuleViolation d) :=
  record_movement_rejects_invalid demoLots [] "PHARMACY" 1 1 "SALE" 0 none ""
    (Or.inl (by decide))

/-- C10: an explicit `credit_used` argument equal to 0 is falsy in Python,
so `approve_order` behaves exactly as with no override: the credit used
resolves to the order total, and with a positive total a successful
approval reserves that full total. -/
theorem approve_order_zero_credit_override (w : World) (order_id : Nat) :
    approve_order w order_id (some 0) = approve_order w order_id none
    ∧ (∀ (order : B2BOrder) (credit : PharmacyCredit) (w1 : World),
        getOrder w.orders order_id = some order →
        0 < order.total_amount →
        getCredit w.credits order.buyer_id = some credit →
        approve_order w order_id (some 0) = .ok w1 →
        w1.credits = setCredit w.credits
          { credit with
            reserved_balance := credit.reserved_balance + order.total_amount }) := by
  constructor
  · rfl
  · intro order credit w1 horder htotal hcredit hok
    unfold approve_order at hok
    rw [horder] at hok
    dsimp only at hok
    have hr : resolveCreditUsed (some 0) order = order.total_amount := by
      simp [resolveCreditUsed]
    rw [hr] at hok
    split at hok
    case h_1 => exact absurd hok (by simp)
    case h_2 =>
      split at hok
      case h_1 => exact absurd hok (by simp)
      case h_2 =>
        rw [if_pos htotal, hcredit] at hok
        dsimp only at hok
        split at hok
        case isTrue => exact absurd hok (by simp)
        case isFalse h4 =>
          simp only [Except.ok.injEq] at hok
          rw [← hok]

/-- Witness: approving order 1 with an explicit zero override equals the
default call, and reserves the full 1000 total. -/
theorem approve_order_zero_credit_override_witness :
    approve_order demoWorldSubmitted 1 (some 0) = approve_order demoWorldSubmitted 1 none
    ∧ demoWorldApproved.credits = setCredit demoWorldSubmitted.credits
        { demoCredit with reserved_balance := demoCredit.reserved_balance + 1000 } := by
  constructor
  · exact (approve_order_zero_credit_override demoWorldSubmitted 1).1
  · exact (approve_order_zero_credit_override demoWorldSubmitted 1).2
      demoOrderSubmitted demoCredit demoWorldApproved
      (by decide) (by decide) (by decide) (by decide)

/-- A found order carries the looked-up id and is not soft-deleted. -/
theorem getOrder_facts (orders : List B2BOrder) (oid : Nat) (order : B2BOrder)
    (h : getOrder orders oid = some order) :
    order.id = oid ∧ order.is_deleted = false := by
  induction orders with
  | nil => simp [getOrder] at h
  | cons x rest ih =>
    unfold getOrder at h
    split at h
    case isTrue hcond =>
      simp only [Option.some.injEq] at h
      subst h
      simp only [Bool.and_eq_true, beq_iff_eq, Bool.not_eq_true'] at hcond
      exact ⟨hcond.1, hcond.2⟩
    case isFalse hcond => exact ih h

/-- Writing back a live order row under the id of a found order makes the
lookup return the written row. -/
theorem getOrder_setOrder (orders : List B2BOrder) (oid : Nat)
    (order o : B2BOrder) (h : getOrder orders oid = some order)
    (hid : o.id = order.id) (hdel : o.is_deleted = false) :
    getOrder (setOrder orders o) oid = some o := by
  have hfacts := getOrder_facts orders oid order h
  have hoid : o.id = oid := hid.trans hfacts.1
  induction orders with
  | nil => simp [getOrder] at h
  | cons x rest ih =>
    unfold getOrder at h
    split at h
    case isTrue hcond =>
      simp only [Bool.and_eq_true, beq_iff_eq, Bool.not_eq_true'] at hcond
      simp only [Option.some.injEq] at h
      have hxid : (x.id == o.id) = true := by
        simp [hcond.1, hoid]
      unfold setOrder
      simp only [List.map_cons]
      rw [if_pos hxid]
      unfold getOrder
      rw [if_pos (by simp [hoid, hdel])]
    case isFalse hcond =>
      by_cases hxid : x.id = oid
      · have hxo : (x.id == o.id) = true := by simp [hxid, hoid]
        unfold setOrder
        simp only [List.map_cons]
        rw [if_pos hxo]
        unfold getOrder
        rw [if_pos (by simp [hoid, hdel])]
      · have hxo : (x.id == o.id) = false := by
          simp [hoid]
          intro hc
          exact absurd hc hxid
        unfold setOrder
        simp only [List.map_cons]
        rw [if_neg (by simp [hxo])]
        unfold getOrder
        rw [if_neg (by simp; intro hc; exact absurd hc hxid)]
        exact ih h

/-- A found credit line belongs to the looked-up pharmacy. -/
theorem getCredit_facts (credits : List PharmacyCredit) (pid : Nat)
    (c : PharmacyCredit) (h : getCredit credits pid = some c) :
    c.pharmacy_id = pid := by
  induction credits with
  | nil => simp [getCredit] at h
  | cons x rest ih =>
    unfold getCredit at h
    split at h
    case isTrue hcond =>
      simp only [Option.some.injEq] at h
      subst h
      simpa using hcond
    case isFalse hcond => exact ih h

/-- Writing back a credit row under the key of a found credit line makes
the lookup return the written row. -/
theorem getCredit_setCredit (credits : List PharmacyCredit) (pid : Nat)
    (c c' : PharmacyCredit) (h : getCredit credits pid = some c)
    (hid : c'.pharmacy_id = c.pharmacy_id) :
    getCredit (setCredit credits c') pid = some c' := by
  have hpid : c'.pharmacy_id = pid := hid.trans (getCredit_facts credits pid c h)
  induction credits with
  | nil => simp [getCredit] at h
  | cons x rest ih =>
    unfold getCredit at h
    split at h
    case isTrue hcond =>
      have hx : (x.pharmacy_id == c'.pharmacy_id) = true := by
        simp only [beq_iff_eq] at hcond
        simp [hcond, hpid]
      unfold setCredit
      simp only [List.map_cons]
      rw [if_pos hx]
      unfold getCredit
      rw [if_pos (by simp [hpid])]
    case isFalse hcond =>
      simp only [beq_iff_eq] at hcond
      have hx : (x.pharmacy_id == c'.pharmacy_id) = false := by
        simp [hpid]
        intro hc
        exact absurd hc hcond
      unfold setCredit
      simp only [List.map_cons]
      rw [if_neg (by simp [hx])]
      unfold getCredit
      rw [if_neg (by simp; intro hc; exact absurd hc hcond)]
      exact ih h

/-- C6: for a SUBMITTED order whose `credit_used` resolves to a positive
amount, `approve_order` fails with `BusinessRuleViolation` when the buyer
has no credit line or when the available credit (limit − current −
reserved) is below that amount (leaving everything unchanged, by the
transactional model); otherwise it reserves exactly that amount into
`reserved_balance`, and a subsequent `cancel_order` of the approved order
releases exactly that amount, restoring the credit line to its
pre-approval value. -/
theorem approve_reserves_cancel_releases (w : World) (order_id : Nat)
    (order : B2BOrder) (credit_used_arg : Option Int)
    (horder : getOrder w.orders order_id = some order)
    (hstatus : order.status = .SUBMITTED)
    (hprices : _validate_item_prices w order order.price_override_approved = .ok ())
    (hc : 0 < resolveCreditUsed credit_used_arg order) :
    (getCredit w.credits order.buyer_id = none →
        approve_order w order_id credit_used_arg
          = .error (.businessRuleViolation "Buyer has no credit line configured."))
    ∧ (∀ credit : PharmacyCredit, getCredit w.credits order.buyer_id = some credit →
        (credit.credit_limit - credit.current_balance - credit.reserved_balance
            < resolveCreditUsed credit_used_arg order →
          approve_order w order_id credit_used_arg
            = .error (.businessRuleViolation "Insufficient credit"))
        ∧ (resolveCreditUsed credit_used_arg order
              ≤ credit.credit_limit - credit.current_balance - credit.reserved_balance →
          ∃ w1 w2,
            approve_order w order_id credit_used_arg = .ok w1
            ∧ getCredit w1.credits order.buyer_id
                = some { credit with reserved_balance :=
                    credit.reserved_balance + resolveCreditUsed credit_used_arg order }
            ∧ cancel_order w1 order_id = .ok w2
            ∧ getCredit w2.credits order.buyer_id = some credit)) := by
  have hmem : Status.APPROVED ∈ ORDER_TRANSITIONS order.status := by
    rw [hstatus]; decide
  refine ⟨?_, ?_⟩
  · intro hnone
    simp [approve_order, horder, _assert_transition, hmem, hprices, hnone, hc]
  · intro credit hcredit
    have hdel : order.is_deleted = false := (getOrder_facts w.orders order_id order horder).2
    constructor
    · intro hlow
      simp [approve_order, horder, _assert_transition, hmem, hprices, hcredit, hc, hlow]
    · intro havail
      have hlt : ¬(credit.credit_limit - credit.current_balance - credit.reserved_balance
          < resolveCreditUsed credit_used_arg order) := not_lt.mpr havail
      have happ : approve_order w order_id credit_used_arg = .ok
          { w with
            credits := setCredit w.credits
              { credit with reserved_balance :=
                  credit.reserved_balance + resolveCreditUsed credit_used_arg order }
            orders := setOrder w.orders
              { order with credit_used := resolveCreditUsed credit_used_arg order
                           status := .APPROVED } } := by
        simp [approve_order, horder, _assert_transition, hmem, hprices, hcredit, hc, hlt]
      have hgo1 : getOrder (setOrder w.orders
            { order with credit_used := resolveCreditUsed credit_used_arg order
                         status := .APPROVED }) order_id
          = some { order with credit_used := resolveCreditUsed credit_used_arg order
                              status := .APPROVED } :=
        getOrder_setOrder w.orders order_id order _ horder rfl hdel
      have hgc1 : getCredit (setCredit w.credits
            { credit with reserved_balance :=
                credit.reserved_balance + resolveCreditUsed credit_used_arg order })
            order.buyer_id
          = some { credit with reserved_balance :=
              credit.reserved_balance + resolveCreditUsed credit_used_arg order } :=
        getCredit_setCredit w.credits order.buyer_id credit _ hcredit rfl
      have hmemc : Status.CANCELLED ∈ ORDER_TRANSITIONS Status.APPROVED := by decide
      have hcancel : cancel_order
          { w with
            credits := setCredit w.credits
              { credit with reserved_balance :=
                  credit.reserved_balance + resolveCreditUsed credit_used_arg order }
            orders := setOrder w.orders
              { order with credit_used := resolveCreditUsed credit_used_arg order
                           status := .APPROVED } } order_id = .ok
          { w with
            credits := setCredit (setCredit w.credits
              { credit with reserved_balance :=
                  credit.reserved_balance + resolveCreditUsed credit_used_arg order })
              { credit with reserved_balance :=
                  (credit.reserved_balance + resolveCreditUsed credit_used_arg order
                    - resolveCreditUsed credit_used_arg order) }
            orders := setOrder (setOrder w.orders
              { order with credit_used := resolveCreditUsed credit_used_arg order
                           status := .APPROVED })
              { order with credit_used := resolveCreditUsed credit_used_arg order
                           status := .CANCELLED } } := by
        simp [cancel_order, hgo1, _assert_transition, hmemc, hgc1, hc]
      have hcfix : ({ credit with reserved_balance :=
            (credit.reserved_balance + resolveCreditUsed credit_used_arg order
              - resolveCreditUsed credit_used_arg order) } : PharmacyCredit) = credit := by
        obtain ⟨a, b, c, d⟩ := credit
        simp
      refine ⟨_, _, happ, hgc1, hcancel, ?_⟩
      have hgc2 := getCredit_setCredit (setCredit w.credits
          { credit with reserved_balance :=
              credit.reserved_balance + resolveCreditUsed credit_used_arg order })
          order.buyer_id
          { credit with reserved_balance :=
              credit.reserved_balance + resolveCreditUsed credit_used_arg order }
          { credit with reserved_balance :=
              (credit.reserved_balance + resolveCreditUsed credit_used_arg order
                - resolveCreditUsed credit_used_arg order) }
          hgc1 rfl
      exact hgc2.trans (by rw [hcfix])

/-- `getLot` success implies the raw FK lookup succeeds too. -/
theorem lookupBy_of_getLot (lots : List (Nat × NationalLot)) (lid : Nat)
    (lot : NationalLot) (h : getLot lots lid = some lot) :
    lookupBy lots lid = some lot := by
  unfold getLot at h
  split at h
  case h_1 => exact absurd h (by simp)
  case h_2 l hl =>
    split at h
    case isTrue => exact absurd h (by simp)
    case isFalse =>
      simp only [Option.some.injEq] at h
      rw [hl, h]

/-- Items created by `createOrderItems` without override respect the
authorized price of their lot's medicine. -/
theorem createOrderItems_ok_prices (lots : List (Nat × NationalLot))
    (meds : List (Nat × Medicine)) (oid : Nat) :
    ∀ (rows : List ItemRow) (items : List B2BOrderItem) (total : Int),
      createOrderItems lots meds oid false rows = .ok (items, total) →
      ∀ it ∈ items, ∃ lot med, lookupBy lots it.lot_id = some lot
        ∧ lookupBy meds lot.medicine_id = some med
        ∧ it.unit_price ≤ med.authorized_price := by
  intro rows
  induction rows with
  | nil =>
    intro items total h it hit
    unfold createOrderItems at h
    simp only [Except.ok.injEq, Prod.mk.injEq] at h
    rw [← h.1] at hit
    simp at hit
  | cons row rest ih =>
    intro items total h it hit
    unfold createOrderItems at h
    split at h
    case h_1 => exact absurd h (by simp)
    case h_2 lot hlot =>
      split at h
      case isTrue => exact absurd h (by simp)
      case isFalse husable =>
        split at h
        case h_1 => exact absurd h (by simp)
        case h_2 med hmed =>
          dsimp only at h
          split at h
          case isTrue => exact absurd h (by simp)
          case isFalse hprice =>
            split at h
            case isTrue => exact absurd h (by simp)
            case isFalse hqty =>
              split at h
              case h_1 => exact absurd h (by simp)
              case h_2 items_rest total_rest hrest =>
                simp only [Except.ok.injEq, Prod.mk.injEq] at h
                rw [← h.1] at hit
                rcases List.mem_cons.mp hit with hx | hx
                · subst hx
                  refine ⟨lot, med, lookupBy_of_getLot lots row.lot_id lot hlot,
                    hmed, ?_⟩
                  by_contra hgt
                  have hgt' : med.authorized_price < row.unit_price.getD med.authorized_price :=
                    lt_of_not_le hgt
                  exact hprice (by simp [hgt'])
                · exact ih items_rest total_rest hrest it hx

/-- Items accepted by the price-validation loop without override respect
the authorized price. -/
theorem validateItemsLoop_ok_prices (w : World) :
    ∀ (items : List B2BOrderItem) (u : Unit),
      validateItemsLoop w false items = .ok u →
      ∀ it ∈ items, ∃ a, authorizedPrice w it.lot_id = some a
        ∧ it.unit_price ≤ a := by
  intro items
  induction items with
  | nil => intro u h it hit; simp at hit
  | cons x rest ih =>
    intro u h it hit
    unfold validateItemsLoop at h
    split at h
    case h_1 => exact absurd h (by simp)
    case h_2 authorized hauth =>
      split at h
      case isTrue => exact absurd h (by simp)
      case isFalse hprice =>
        rcases List.mem_cons.mp hit with hx | hx
        · subst hx
          refine ⟨authorized, hauth, ?_⟩
          by_contra hgt
          have hgt' : authorized < it.unit_price := lt_of_not_le hgt
          exact hprice (by simp [hgt'])
        · exact ih u h it hx

/-- Shape of a successful `process_b2b_transaction`: the ledger grew by the
B2B_OUT (seller) and B2B_IN (buyer) movements of the requested quantity. -/
theorem process_b2b_ok_inv (lots : List (Nat × NationalLot))
    (ledger : List StockMovement)
    (s_et : String) (s_eid : Nat) (b_et : String) (b_eid : Nat)
    (lid : Nat) (q : Int) (rid : Option Nat) (rt : String)
    (l' : List StockMovement) (om im : StockMovement)
    (h : process_b2b_transaction lots ledger s_et s_eid b_et b_eid lid q rid rt
        = .ok (l', om, im)) :
    l' = ledger ++ [om, im]
    ∧ om.entity_type = s_et ∧ om.entity_id = s_eid ∧ om.lot_id = lid
    ∧ om.movement_type = "B2B_OUT" ∧ om.quantity = q
    ∧ im.entity_type = b_et ∧ im.entity_id = b_eid ∧ im.lot_id = lid
    ∧ im.movement_type = "B2B_IN" ∧ im.quantity = q := by
  unfold process_b2b_transaction at h
  split at h
  case isTrue => exact absurd h (by simp)
  case isFalse h1 =>
    split at h
    case isTrue => exact absurd h (by simp)
    case isFalse h2 =>
      split at h
      case h_1 => exact absurd h (by simp)
      case h_2 lot hlot =>
        split at h
        case isTrue => exact absurd h (by simp)
        case isFalse h3 =>
          dsimp only at h
          simp only [Except.ok.injEq, Prod.mk.injEq] at h
          obtain ⟨hl, hom, him⟩ := h
          have hom_et : om.entity_type = s_et := by rw [← hom]
          have hom_eid : om.entity_id = s_eid := by rw [← hom]
          have hom_lot : om.lot_id = lid := by rw [← hom]
          have hom_mt : om.movement_type = "B2B_OUT" := by rw [← hom]
          have hom_q : om.quantity = q := by rw [← hom]
          have him_et : im.entity_type = b_et := by rw [← him]
          have him_eid : im.entity_id = b_eid := by rw [← him]
          have him_lot : im.lot_id = lid := by rw [← him]
          have him_mt : im.movement_type = "B2B_IN" := by rw [← him]
          have him_q : im.quantity = q := by rw [← him]
          rw [him, hom] at hl
          exact ⟨hl.symm, hom_et, hom_eid, hom_lot, hom_mt, hom_q,
            him_et, him_eid, him_lot, him_mt, him_q⟩

/-- Appending a B2B_OUT/B2B_IN pair changes an arbitrary balance by the
transfer's signed contribution: +q on the buyer side, −q on the seller
side (0 elsewhere, and 0 net when seller and buyer coincide). -/
theorem balance_append_transfer (ledger : List StockMovement)
    (om im : StockMovement) (seller_id buyer_id lid : Nat) (q : Int)
    (hom : om.entity_type = "PHARMACY" ∧ om.entity_id = seller_id
      ∧ om.lot_id = lid ∧ om.movement_type = "B2B_OUT" ∧ om.quantity = q)
    (him : im.entity_type = "PHARMACY" ∧ im.entity_id = buyer_id
      ∧ im.lot_id = lid ∧ im.movement_type = "B2B_IN" ∧ im.quantity = q)
    (et : String) (eid lid' : Nat) :
    _get_balance_orm (ledger ++ [om, im]) et eid lid'
      = _get_balance_orm ledger et eid lid'
        + ((if et == "PHARMACY" && eid == buyer_id && lid' == lid then q else 0)
          - (if et == "PHARMACY" && eid == seller_id && lid' == lid then q else 0)) := by
  have hd1 : "B2B_OUT" ∉ INBOUND_TYPES := by decide
  have hd2 : "B2B_OUT" ∈ OUTBOUND_TYPES := by decide
  have hd3 : "B2B_IN" ∈ INBOUND_TYPES := by decide
  have hd4 : "B2B_IN" ∉ OUTBOUND_TYPES := by decide
  have com : inboundCase om - outboundCase om = -q := by
    simp [inboundCase, outboundCase, hom.2.2.2.1, hom.2.2.2.2, hd1, hd2]
  have cim : inboundCase im - outboundCase im = q := by
    simp [inboundCase, outboundCase, him.2.2.2.1, him.2.2.2.2, hd3, hd4]
  have hsm : (movementMatches et eid lid' om = true)
      ↔ (et = "PHARMACY" ∧ eid = seller_id ∧ lid' = lid) := by
    simp only [movementMatches, Bool.and_eq_true, beq_iff_eq,
      hom.1, hom.2.1, hom.2.2.1]
    constructor
    · rintro ⟨⟨a, b⟩, c⟩; exact ⟨a.symm, b.symm, c.symm⟩
    · rintro ⟨a, b, c⟩; exact ⟨⟨a.symm, b.symm⟩, c.symm⟩
  have hbm : (movementMatches et eid lid' im = true)
      ↔ (et = "PHARMACY" ∧ eid = buyer_id ∧ lid' = lid) := by
    simp only [movementMatches, Bool.and_eq_true, beq_iff_eq,
      him.1, him.2.1, him.2.2.1]
    constructor
    · rintro ⟨⟨a, b⟩, c⟩; exact ⟨a.symm, b.symm, c.symm⟩
    · rintro ⟨a, b, c⟩; exact ⟨⟨a.symm, b.symm⟩, c.symm⟩
  have hA : ((et == "PHARMACY" && eid == buyer_id && lid' == lid) = true)
      ↔ (et = "PHARMACY" ∧ eid = buyer_id ∧ lid' = lid) := by
    simp [Bool.and_eq_true, beq_iff_eq, and_assoc]
  have hB : ((et == "PHARMACY" && eid == seller_id && lid' == lid) = true)
      ↔ (et = "PHARMACY" ∧ eid = seller_id ∧ lid' = lid) := by
    simp [Bool.and_eq_true, beq_iff_eq, and_assoc]
  rw [show ledger ++ [om, im] = (ledger ++ [om]) ++ [im] from by simp,
    balance_append, balance_append]
  by_cases hs : et = "PHARMACY" ∧ eid = seller_id ∧ lid' = lid
  · by_cases hb : et = "PHARMACY" ∧ eid = buyer_id ∧ lid' = lid
    · rw [if_pos (hsm.mpr hs), if_pos (hbm.mpr hb), if_pos (hA.mpr hb),
        if_pos (hB.mpr hs), com, cim]
      ring
    · rw [if_pos (hsm.mpr hs), if_neg (fun hc => hb (hbm.mp hc)),
        if_neg (fun hc => hb (hA.mp hc)), if_pos (hB.mpr hs), com]
      ring
  · by_cases hb : et = "PHARMACY" ∧ eid = buyer_id ∧ lid' = lid
    · rw [if_neg (fun hc => hs (hsm.mp hc)), if_pos (hbm.mpr hb),
        if_pos (hA.mpr hb), if_neg (fun hc => hs (hB.mp hc)), cim]
      ring
    · rw [if_neg (fun hc => hs (hsm.mp hc)), if_neg (fun hc => hb (hbm.mp hc)),
        if_neg (fun hc => hb (hA.mp hc)), if_neg (fun hc => hs (hB.mp hc))]
      ring

/-- C7 counterexample: replacing the items of a DRAFT order (authorized
price 100, no override) with an item priced 200 succeeds —
`update_draft_order` applies no price check, contradicting the claim that
the check runs at draft update. -/
theorem update_draft_no_price_check_cex :
    update_draft_order demoWorldDraft 1
        (some [{ lot_id := 1, quantity_ordered := 5, unit_price := some 200 }]) none
      = .ok { demoWorldDraft with
              orders := [{ demoOrderDraft with total_amount := 1000 }]
              items := [{ order_id := 1, lot_id := 1, quantity_ordered := 5,
                          quantity_delivered := 0, unit_price := 200,
                          is_deleted := false }] }
    ∧ demoOrderDraft.price_override_approved = false
    ∧ authorizedPrice demoWorldDraft 1 = some 100
    ∧ (100 : Int) < 200 := by
  refine ⟨by decide, rfl, by decide, by decide⟩

/-- C7 (amended): the per-item price check (unit price at most the
medicine's authorized price unless the order's override is set) is applied
at order creation and re-applied at approval — but not at draft update.
Every item a no-override `create_order` stores respects the authorized
price, and a no-override order can only be approved when all its live
items respect it. -/
theorem price_check_at_create_and_approve :
    (∀ (w w1 : World) (seller_id buyer_id oid : Nat) (rows : List ItemRow),
        create_order w seller_id buyer_id rows false = .ok (w1, oid) →
        ∀ it ∈ w1.items.drop w.items.length,
          ∃ a, authorizedPrice w it.lot_id = some a ∧ it.unit_price ≤ a)
    ∧ (∀ (w w1 : World) (order_id : Nat) (order : B2BOrder)
        (credit_used_arg : Option Int),
        getOrder w.orders order_id = some order →
        order.price_override_approved = false →
        approve_order w order_id credit_used_arg = .ok w1 →
        ∀ it ∈ orderItems w order.id,
          ∃ a, authorizedPrice w it.lot_id = some a ∧ it.unit_price ≤ a) := by
  constructor
  · intro w w1 seller_id buyer_id oid rows h it hit
    unfold create_order at h
    split at h
    case h_1 => exact absurd h (by simp)
    case h_2 seller hseller =>
      split at h
      case isTrue => exact absurd h (by simp)
      case isFalse hstype =>
        split at h
        case h_1 => exact absurd h (by simp)
        case h_2 buyer hbuyer =>
          split at h
          case isTrue => exact absurd h (by simp)
          case isFalse hbtype =>
            dsimp only at h
            split at h
            case h_1 => exact absurd h (by simp)
            case h_2 new_items total hitems =>
              simp only [Except.ok.injEq, Prod.mk.injEq] at h
              rw [← h.1] at hit
              dsimp only at hit
              rw [List.drop_left] at hit
              obtain ⟨lot, med, hlk, hmk, hle⟩ :=
                createOrderItems_ok_prices w.lots w.medicines (freshOrderId w.orders)
                  rows new_items total hitems it hit
              exact ⟨med.authorized_price, by simp [authorizedPrice, hlk, hmk], hle⟩
  · intro w w1 order_id order credit_used_arg horder hoverride h it hit
    unfold approve_order at h
    rw [horder] at h
    dsimp only at h
    split at h
    case h_1 => exact absurd h (by simp)
    case h_2 =>
      split at h
      case h_1 => exact absurd h (by simp)
      case h_2 u hval =>
        rw [hoverride] at hval
        exact validateItemsLoop_ok_prices w (orderItems w order.id) u hval it hit

/-- Witness: creating order 2 with a 100-priced row stores an item that
respects the authorized price 100. -/
theorem price_check_at_create_and_approve_witness :
    ∃ a, authorizedPrice demoWorldDraft demoCreatedItem.lot_id = some a
      ∧ demoCreatedItem.unit_price ≤ a :=
  price_check_at_create_and_approve.1 demoWorldDraft demoWorldCreated 1 2 2
    [demoRowOk] (by decide) demoCreatedItem (by decide)

/-- Witness: approving the 1000-total SUBMITTED order reserves exactly
1000; cancelling the approved order releases it, restoring the line. -/
theorem approve_reserves_cancel_releases_witness :
    ∃ w1 w2,
      approve_order demoWorldSubmitted 1 none = .ok w1
      ∧ getCredit w1.credits demoOrderSubmitted.buyer_id
          = some { demoCredit with reserved_balance :=
              demoCredit.reserved_balance + resolveCreditUsed none demoOrderSubmitted }
      ∧ cancel_order w1 1 = .ok w2
      ∧ getCredit w2.credits demoOrderSubmitted.buyer_id = some demoCredit :=
  ((approve_reserves_cancel_releases demoWorldSubmitted 1 demoOrderSubmitted none
      (by decide) (by decide) (by decide) (by decide)).2 demoCredit
      (by decide)).2 (by decide)

/-- Successful delivery loop: every qualifying item (of the order,
non-deleted, positive quantity) gets `quantity_delivered :=
quantity_ordered` and other rows pass through; every balance moves by the
sum of the qualifying items' transfer deltas. -/
theorem deliverLoop_ok (lots : List (Nat × NationalLot)) (order : B2BOrder) :
    ∀ (items : List B2BOrderItem) (ledger ledger2 : List StockMovement)
      (items2 : List B2BOrderItem),
      deliverLoop lots order ledger items = .ok (ledger2, items2) →
      items2 = items.map (fun it =>
          if it.order_id == order.id && !it.is_deleted && it.quantity_ordered > 0
          then { it with quantity_delivered := it.quantity_ordered } else it)
      ∧ ∀ (et : String) (eid lid' : Nat),
          _get_balance_orm ledger2 et eid lid'
            = _get_balance_orm ledger et eid lid'
              + ((items.filter (fun it => it.order_id == order.id
                    && !it.is_deleted && it.quantity_ordered > 0)).map
                  (itemDelta order et eid lid')).sum := by
  intro items
  induction items with
  | nil =>
    intro ledger ledger2 items2 h
    unfold deliverLoop at h
    simp only [Except.ok.injEq, Prod.mk.injEq] at h
    refine ⟨h.2.symm, ?_⟩
    intro et eid lid'
    rw [← h.1]
    simp
  | cons it rest ih =>
    intro ledger ledger2 items2 h
    unfold deliverLoop at h
    split at h
    case isTrue hcond =>
      split at h
      case h_1 => exact absurd h (by simp)
      case h_2 => exact absurd h (by simp)
      case h_3 ledger1 om im heq =>
        split at h
        case h_1 => exact absurd h (by simp)
        case h_2 ledger2x rest2 hrec =>
          simp only [Except.ok.injEq, Prod.mk.injEq] at h
          obtain ⟨hled, hitems⟩ := h
          obtain ⟨hinv1, hom_et, hom_eid, hom_lot, hom_mt, hom_q,
            him_et, him_eid, him_lot, him_mt, him_q⟩ :=
            process_b2b_ok_inv lots ledger "PHARMACY" order.seller_id
              "PHARMACY" order.buyer_id it.lot_id it.quantity_ordered
              (some order.id) "B2BOrder" ledger1 om im heq
          obtain ⟨hmap, hbal⟩ := ih ledger1 ledger2x rest2 hrec
          constructor
          · rw [← hitems, hmap]
            simp only [List.map_cons]
            rw [if_pos hcond]
          · intro et eid lid'
            rw [← hled, hbal et eid lid', hinv1,
              balance_append_transfer ledger om im order.seller_id
                order.buyer_id it.lot_id it.quantity_ordered
                ⟨hom_et, hom_eid, hom_lot, hom_mt, hom_q⟩
                ⟨him_et, him_eid, him_lot, him_mt, him_q⟩ et eid lid']
            simp only [List.filter_cons]
            rw [if_pos hcond]
            simp only [List.map_cons, List.sum_cons, itemDelta]
            ring
    case isFalse hcond =>
      split at h
      case h_1 => exact absurd h (by simp)
      case h_2 ledger2x rest2 hrec =>
        simp only [Except.ok.injEq, Prod.mk.injEq] at h
        obtain ⟨hled, hitems⟩ := h
        obtain ⟨hmap, hbal⟩ := ih ledger ledger2x rest2 hrec
        constructor
        · rw [← hitems, hmap]
          simp only [List.map_cons]
          rw [if_neg hcond]
        · intro et eid lid'
          rw [← hled, hbal et eid lid']
          simp only [List.filter_cons]
          rw [if_neg hcond]

/-- The delivery loop never surfaces `InsufficientStock`: the per-item
catch re-raises it as `BusinessRuleViolation`. -/
theorem deliverLoop_no_insufficient (lots : List (Nat × NationalLot))
    (order : B2BOrder) :
    ∀ (items : List B2BOrderItem) (ledger : List StockMovement) (d : String),
      deliverLoop lots order ledger items ≠ .error (.insufficientStock d) := by
  intro items
  induction items with
  | nil =>
    intro ledger d h
    simp [deliverLoop] at h
  | cons it rest ih =>
    intro ledger d h
    unfold deliverLoop at h
    split at h
    case isTrue hcond =>
      split at h
      case h_1 => exact absurd h (by simp)
      case h_2 => simp only [Except.error.injEq] at h; subst h; rename_i hne _; exact hne d rfl
      case h_3 ledger1 om im heq =>
        split at h
        case h_1 e hrec =>
          simp only [Except.error.injEq] at h
          subst h
          exact ih ledger1 d hrec
        case h_2 => exact absurd h (by simp)
    case isFalse hcond =>
      split at h
      case h_1 e hrec =>
        simp only [Except.error.injEq] at h
        subst h
        exact ih ledger d hrec
      case h_2 => exact absurd h (by simp)

/-- DELIVERED is reachable only from IN_TRANSIT. -/
theorem delivered_only_from_in_transit :
    ∀ s : Status, Status.DELIVERED ∈ ORDER_TRANSITIONS s → s = .IN_TRANSIT := by
  decide

/-- C5: a successful `deliver_order` implies the order was IN_TRANSIT;
every non-deleted item of the order with positive quantity gets
`quantity_delivered = quantity_ordered` (other item rows unchanged); every
holder+lot balance moves by the summed transfer deltas of those items
(−quantity at the seller, +quantity at the buyer, per item lot); when
`credit_used > 0` exactly that amount moves from `reserved_balance` to
`current_balance` on the buyer's credit line (credits untouched
otherwise); and the order ends DELIVERED. A delivery never surfaces
`InsufficientStock` — a stock shortfall is re-raised as
`BusinessRuleViolation`, and by the transactional model a failed delivery
leaves the order IN_TRANSIT with no movement or item change persisted. -/
theorem deliver_order_spec (w : World) (order_id : Nat) (order : B2BOrder)
    (horder : getOrder w.orders order_id = some order) :
    (∀ w1, deliver_order w order_id = .ok w1 →
        order.status = .IN_TRANSIT
        ∧ w1.items = w.items.map (fun it =>
            if it.order_id == order.id && !it.is_deleted && it.quantity_ordered > 0
            then { it with quantity_delivered := it.quantity_ordered } else it)
        ∧ (∀ (et : String) (eid lid' : Nat),
            _get_balance_orm w1.ledger et eid lid'
              = _get_balance_orm w.ledger et eid lid'
                + ((w.items.filter (fun it => it.order_id == order.id
                      && !it.is_deleted && it.quantity_ordered > 0)).map
                    (itemDelta order et eid lid')).sum)
        ∧ getOrder w1.orders order_id = some { order with status := .DELIVERED }
        ∧ (0 < order.credit_used →
            ∃ credit, getCredit w.credits order.buyer_id = some credit
              ∧ getCredit w1.credits order.buyer_id = some
                  { credit with
                    reserved_balance := credit.reserved_balance - order.credit_used
                    current_balance := credit.current_balance + order.credit_used })
        ∧ (order.credit_used ≤ 0 → w1.credits = w.credits))
    ∧ (∀ d, deliver_order w order_id ≠ .error (.insufficientStock d)) := by
  have hdel : order.is_deleted = false := (getOrder_facts w.orders order_id order horder).2
  constructor
  · intro w1 h
    unfold deliver_order at h
    rw [horder] at h
    dsimp only at h
    split at h
    case h_1 => exact absurd h (by simp)
    case h_2 u hassert =>
      have hcont : Status.DELIVERED ∈ ORDER_TRANSITIONS order.status := by
        unfold _assert_transition at hassert
        split at hassert
        case isTrue hc => simpa using hc
        case isFalse => exact absurd hassert (by simp)
      have hst : order.status = .IN_TRANSIT :=
        delivered_only_from_in_transit order.status hcont
      split at h
      case h_1 => exact absurd h (by simp)
      case h_2 ledger1 items1 hloop =>
        obtain ⟨hmap, hbal⟩ := deliverLoop_ok w.lots order w.items w.ledger
          ledger1 items1 hloop
        split at h
        case isTrue hcu =>
          split at h
          case h_1 => exact absurd h (by simp)
          case h_2 credit hcredit =>
            simp only [Except.ok.injEq] at h
            subst h
            refine ⟨hst, hmap, hbal, ?_, ?_, ?_⟩
            · exact getOrder_setOrder w.orders order_id order _ horder rfl hdel
            · intro _
              exact ⟨credit, hcredit,
                getCredit_setCredit w.credits order.buyer_id credit _ hcredit rfl⟩
            · intro hle
              exact absurd hcu (not_lt.mpr hle)
        case isFalse hcu =>
          simp only [Except.ok.injEq] at h
          subst h
          refine ⟨hst, hmap, hbal, ?_, ?_, ?_⟩
          · exact getOrder_setOrder w.orders order_id order _ horder rfl hdel
          · intro hpos
            exact absurd hpos hcu
          · intro _
            rfl
  · intro d hcontra
    unfold deliver_order at hcontra
    rw [horder] at hcontra
    dsimp only at hcontra
    split at hcontra
    case h_1 e hassert =>
      simp only [Except.error.injEq] at hcontra
      subst hcontra
      unfold _assert_transition at hassert
      split at hassert
      case isTrue => exact absurd hassert (by simp)
      case isFalse => simp at hassert
    case h_2 u hassert =>
      split at hcontra
      case h_1 e hloop =>
        simp only [Except.error.injEq] at hcontra
        subst hcontra
        exact deliverLoop_no_insufficient w.lots order w.items w.ledger d hloop
      case h_2 ledger1 items1 hloop =>
        split at hcontra
        case isTrue =>
          split at hcontra
          case h_1 => simp at hcontra
          case h_2 => simp at hcontra
        case isFalse => simp at hcontra

/-- Witness: delivering the IN_TRANSIT order (10 units ordered, seller
holds 100, credit_used 1000) succeeds and ends DELIVERED with the item
fully delivered and the credit settled. -/
theorem deliver_order_spec_witness :
    demoOrderInTransit.status = .IN_TRANSIT
    ∧ getOrder demoWorldAfterDeliver.orders 1
        = some { demoOrderInTransit with status := .DELIVERED } := by
  have h := (deliver_order_spec demoWorldInTransit 1 demoOrderInTransit
      (by decide)).1 demoWorldAfterDeliver (by decide)
  exact ⟨h.1, h.2.2.2.1⟩

end PharmaTrack
